import Mathlib

/-!
Verification of the media-translation pipeline declared in
`src/cdk_app/step_function_stack.py`.

The repository declares an AWS Step Functions state graph (nine states:
StartTranscriptionJob, WaitForTranscription, GetTranscriptionJob,
TranscriptionComplete?, IsLanguageEnglish?, SkipTranslation,
GetTranscriptionFile, TranslateText, SynthesizeSpeech).  Every state's
parameters, result paths, conditions and transitions below are embedded
from that file.  The interpreter that walks the graph (AWS Step Functions
itself) is not part of the repository; it is modelled from the spec
(§4.1 run contract, §7 Timeout, §9 iteration cap) as a fuel-bounded
small-step interpreter.
-/

/-- JSON-like payload values, as threaded through a Step Functions execution
(spec §3: the Execution Context payload). -/
inductive Json where
  | str : String → Json
  | bool : Bool → Json
  | num : Int → Json
  | obj : List (String × Json) → Json
  | arr : List Json → Json

/-- One segment of a payload path such as `$.a.b` or `$.a[0]`. -/
inductive PathSeg where
  | key : String → PathSeg
  | idx : Nat → PathSeg
deriving DecidableEq, Repr

/-- Look a key up in an object's field list (first binding wins). -/
def getInList : List (String × Json) → String → Option Json
  | [], _ => none
  | (k, w) :: rest, f => if k = f then some w else getInList rest f

/-- Top-level field lookup on a JSON value; `none` on non-objects. -/
def getField : Json → String → Option Json
  | .obj kvs, f => getInList kvs f
  | _, _ => none

/-- Set a key in an object's field list, replacing in place when present,
appending otherwise: other bindings and their order are preserved. -/
def setInList : List (String × Json) → String → Json → List (String × Json)
  | [], f, v => [(f, v)]
  | (k, w) :: rest, f, v =>
      if k = f then (k, v) :: rest else (k, w) :: setInList rest f v

/-- Write a top-level field of the payload (the effect of a depth-one
`ResultPath` such as `$.TranscriptionJobDetails`; every `ResultPath` in the
source graph is depth one). -/
def setField : Json → String → Json → Json
  | .obj kvs, f, v => .obj (setInList kvs f v)
  | _, f, v => .obj [(f, v)]

/-- Follow a path such as `$.a.b[0].c` into a JSON value. -/
def getPath : Json → List PathSeg → Option Json
  | p, [] => some p
  | p, .key f :: rest =>
      match getField p f with
      | some v => getPath v rest
      | none => none
  | p, .idx n :: rest =>
      match p with
      | .arr xs =>
          match xs.get? n with
          | some v => getPath v rest
          | none => none
      | _ => none

/-- Glob matching for the ASL `StringMatches` comparison used by the
`IsLanguageEnglish?` choice (pattern `"en*"`, line 146-148 of the stack):
a star matches any character sequence, every other character matches
itself. -/
def globMatch : List Char → List Char → Bool
  | [], s => s.isEmpty
  | '*' :: ps, s => (List.range (s.length + 1)).any (fun n => globMatch ps (s.drop n))
  | _ :: _, [] => false
  | p :: ps, c :: s => p == c && globMatch ps s

/-- `sfn.Condition.string_matches` on strings. -/
def stringMatchesCond (value pattern : String) : Bool :=
  globMatch pattern.data value.data

/-- The ASL intrinsic `States.Format`: each `{}` placeholder in the template
is replaced by the next argument, in order. -/
def statesFormat : List Char → List String → List Char
  | [], _ => []
  | '{' :: '}' :: rest, a :: args => a.data ++ statesFormat rest args
  | '{' :: '}' :: rest, [] => statesFormat rest []
  | c :: rest, args => c :: statesFormat rest args

/-- `States.Format` on strings. -/
def statesFormatS (template : String) (args : List String) : String :=
  String.mk (statesFormat template.data args)

/-- Split a character list on a delimiter, keeping empty chunks. -/
def splitChars (delim : Char) : List Char → List Char → List String
  | [], acc => [String.mk acc.reverse]
  | c :: rest, acc =>
      if c = delim then String.mk acc.reverse :: splitChars delim rest []
      else splitChars delim rest (c :: acc)

/-- The ASL intrinsic `States.StringSplit`, which omits empty substrings
(so for an `https://host/bucket/key` transcript URI, items 2 and 3 are the
bucket and the key, as the `GetTranscriptionFile` parameters rely on). -/
def statesStringSplit (s : String) (delim : Char) : List String :=
  (splitChars delim s.data []).filter (fun t => !t.isEmpty)

/-- A failure reported by an external service call (spec §7 taxonomy:
transient transport errors vs. service-reported errors).  The graph treats
them identically. -/
inductive TaskError where
  | transient : String → TaskError
  | service : String → TaskError
deriving DecidableEq, Repr

/-- Parameters of the `StartTranscriptionJob` task (stack lines 60-76). -/
structure StartTranscriptionParams where
  jobName : String
  identifyLanguage : Bool
  mediaFileUri : String
  outputBucketName : String
deriving DecidableEq, Repr

/-- Parameters of the `TranslateText` task (stack lines 112-125). -/
structure TranslateParams where
  sourceLanguageCode : String
  targetLanguageCode : String
  text : String
deriving DecidableEq, Repr

/-- Parameters of the `SynthesizeSpeech` task (stack lines 127-141);
`outputLocation` embeds the `OutputS3KeyPrefix` parameter. -/
structure SynthesizeParams where
  outputFormat : String
  outputBucketName : String
  outputLocation : String
  text : String
  voiceId : String
deriving DecidableEq, Repr

/-- Build the `StartTranscriptionJob` parameters from the payload
(stack lines 66-73):
`TranscriptionJobName = States.Format('TranscriptionJob-{}', $$.Execution.Name)`,
`IdentifyLanguage = true`,
`Media.MediaFileUri = States.Format('s3://{}/{}', $.detail.bucket.name, $.detail.object.key)`,
`OutputBucketName = $.detail.bucket.name`.
`none` when a referenced payload path is absent or not a string. -/
def buildStartTranscriptionParams (execName : String) (p : Json) :
    Option StartTranscriptionParams :=
  match getPath p [.key "detail", .key "bucket", .key "name"],
        getPath p [.key "detail", .key "object", .key "key"] with
  | some (.str b), some (.str k) =>
      some { jobName := statesFormatS "TranscriptionJob-{}" [execName]
             identifyLanguage := true
             mediaFileUri := statesFormatS "s3://{}/{}" [b, k]
             outputBucketName := b }
  | _, _ => none

/-- Build the `TranslateText` parameters from the payload (stack lines
118-122): source language from
`$.TranscriptionJobDetails.TranscriptionJob.LanguageCode`, target language
the literal `"en"`, text from
`$.TranscriptionFile.FileContents.results.transcripts[0].transcript`. -/
def buildTranslateParams (p : Json) : Option TranslateParams :=
  match getPath p [.key "TranscriptionJobDetails", .key "TranscriptionJob",
                   .key "LanguageCode"],
        getPath p [.key "TranscriptionFile", .key "FileContents",
                   .key "results", .key "transcripts", .idx 0,
                   .key "transcript"] with
  | some (.str src), some (.str t) =>
      some { sourceLanguageCode := src, targetLanguageCode := "en", text := t }
  | _, _ => none

/-- Build the `SynthesizeSpeech` parameters from the payload (stack lines
133-139): literal `OutputFormat "mp3"`, bucket from `$.detail.bucket.name`,
literal `OutputS3KeyPrefix "translations/"`, text from
`$.TranslatedText.TranslatedText`, literal `VoiceId "Joanna"`. -/
def buildSynthesizeParams (p : Json) : Option SynthesizeParams :=
  match getPath p [.key "detail", .key "bucket", .key "name"],
        getPath p [.key "TranslatedText", .key "TranslatedText"] with
  | some (.str b), some (.str t) =>
      some { outputFormat := "mp3", outputBucketName := b
             outputLocation := "translations/", text := t, voiceId := "Joanna" }
  | _, _ => none

/-- Build the `GetTranscriptionFile` (s3 getObject) parameters (stack lines
97-100): bucket and key are items 2 and 3 of the `/`-split of
`$.TranscriptionJobDetails.TranscriptionJob.Transcript.TranscriptFileUri`. -/
def buildGetObjectParams (p : Json) : Option (String × String) :=
  match getPath p [.key "TranscriptionJobDetails", .key "TranscriptionJob",
                   .key "Transcript", .key "TranscriptFileUri"] with
  | some (.str uri) =>
      match (statesStringSplit uri '/').get? 2,
            (statesStringSplit uri '/').get? 3 with
      | some b, some k => some (b, k)
      | _, _ => none
  | _ => none

/-- The nine state names of the graph declared in the stack (lines 60-166). -/
inductive StateName where
  | startTranscriptionJob
  | waitForTranscription
  | getTranscriptionJob
  | transcriptionComplete
  | isLanguageEnglish
  | skipTranslation
  | getTranscriptionFile
  | translateText
  | synthesizeSpeech
deriving DecidableEq, Repr

/-- Observable events of a run: state entries, waits, external call
attempts (with the exact submitted parameters), the poll loop's back edge
(`TranscriptionComplete?` routing a non-COMPLETED status back to the Wait
state), and the no-op Pass. -/
inductive Event where
  | enter : StateName → Event
  | waited : Nat → Event
  | loopBack : Event
  | passed : Event
  | callStartTranscription : StartTranscriptionParams → Event
  | callGetTranscription : Nat → String → Event
  | callGetObject : String → String → Event
  | callTranslate : TranslateParams → Event
  | callSynthesize : SynthesizeParams → Event
deriving DecidableEq, Repr

/-- The external collaborators of spec §6, one function per task resource.
`getTranscriptionJob` additionally receives the poll index so that the
remote job's evolving state (IN_PROGRESS, then COMPLETED or FAILED) can be
modelled; `stringToJson` models the AWS `States.StringToJson` intrinsic
used by `GetTranscriptionFile`'s `ResultSelector` (stack line 101). -/
structure Services where
  startTranscriptionJob : StartTranscriptionParams → Except TaskError Json
  getTranscriptionJob : Nat → String → Except TaskError Json
  getObject : String → String → Except TaskError Json
  stringToJson : String → Option Json
  translateText : TranslateParams → Except TaskError Json
  startSpeechSynthesisTask : SynthesizeParams → Except TaskError Json

/-- Why a run failed.  `timeout` is the engine's iteration budget (spec §7
`Timeout`); `taskError` an external call failure at a state (no retry is
declared anywhere in the graph); `pathError` a reference to a payload path
that is absent or ill-typed (spec §7 `GraphDefinitionError`). -/
inductive FailReason where
  | timeout
  | taskError : StateName → TaskError → FailReason
  | pathError : StateName → FailReason
deriving DecidableEq, Repr

/-- Final outcome of a run (spec §4.1). -/
inductive Outcome where
  | succeeded
  | failed : FailReason → Outcome
deriving DecidableEq, Repr

/-- Result of one small step: transition to a next state, or halt. -/
inductive StepOut where
  | next : StateName → Json → Nat → List Event → StepOut
  | halt : Outcome → Json → List Event → StepOut

/-- The payload after a step. -/
def StepOut.payload : StepOut → Json
  | .next _ p _ _ => p
  | .halt _ p _ => p

/-- The events emitted by a step. -/
def StepOut.events : StepOut → List Event
  | .next _ _ _ es => es
  | .halt _ _ es => es

/-- Whether the step halted the run. -/
def StepOut.isHalt : StepOut → Bool
  | .next _ _ _ _ => false
  | .halt _ _ _ => true

/-- One step of the graph of `step_function_stack.py` at state `s` with
payload `p` (`execName` is `$$.Execution.Name`, `k` the poll index).
Each case embeds the corresponding state declaration:
* `StartTranscriptionJob` (lines 60-76): parameters via
  `buildStartTranscriptionParams`, result written at
  `$.TranscriptionJobDetails`, then `next` = the Wait state (line 153).
* `WaitForTranscription` (lines 106-110): 45-second wait, then
  `GetTranscriptionJob` (line 154).
* `GetTranscriptionJob` (lines 78-89): job name from
  `$.TranscriptionJobDetails.TranscriptionJob.TranscriptionJobName`, result
  overwrites `$.TranscriptionJobDetails`, then the completion choice.
* `TranscriptionComplete?` (lines 156-165): status `"COMPLETED"` proceeds
  to `IsLanguageEnglish?`; ANY other status (including `"FAILED"`) goes
  back to the Wait state — the graph has no failed-job branch.
* `IsLanguageEnglish?` (lines 144-150): `StringMatches "en*"` on
  `$.TranscriptionJobDetails.TranscriptionJob.LanguageCode`; a match goes
  to the `SkipTranslation` Pass, otherwise to `GetTranscriptionFile`.
* `SkipTranslation` (line 149): a Pass with no `next`, hence an end state:
  the run halts SUCCEEDED there.
* `GetTranscriptionFile` (lines 91-104): s3 getObject, `ResultSelector`
  parses `$.Body` with `States.StringToJson` into `FileContents`, written
  at `$.TranscriptionFile`, then `TranslateText` (line 150).
* `TranslateText` (lines 112-125): result at `$.TranslatedText`, then
  `SynthesizeSpeech` (line 150).
* `SynthesizeSpeech` (lines 127-141): no `ResultPath`, so its result
  replaces the whole payload (ASL default `ResultPath` is `$`); no `next`,
  so the run halts SUCCEEDED.
A task with an absent payload path halts FAILED (spec §7
`GraphDefinitionError` / ASL `States.Runtime`); a task whose external call
errors halts FAILED immediately — no state declares a retry policy. -/
def stepAt (svc : Services) (execName : String) (k : Nat) (s : StateName)
    (p : Json) : StepOut :=
  match s with
  | .startTranscriptionJob =>
      match buildStartTranscriptionParams execName p with
      | none => .halt (.failed (.pathError .startTranscriptionJob)) p
          [.enter .startTranscriptionJob]
      | some ps =>
          match svc.startTranscriptionJob ps with
          | .error err => .halt (.failed (.taskError .startTranscriptionJob err)) p
              [.enter .startTranscriptionJob, .callStartTranscription ps]
          | .ok r => .next .waitForTranscription
              (setField p "TranscriptionJobDetails" r) k
              [.enter .startTranscriptionJob, .callStartTranscription ps]
  | .waitForTranscription =>
      .next .getTranscriptionJob p k [.enter .waitForTranscription, .waited 45]
  | .getTranscriptionJob =>
      match getPath p [.key "TranscriptionJobDetails", .key "TranscriptionJob",
                       .key "TranscriptionJobName"] with
      | some (.str jn) =>
          match svc.getTranscriptionJob k jn with
          | .error err => .halt (.failed (.taskError .getTranscriptionJob err)) p
              [.enter .getTranscriptionJob, .callGetTranscription k jn]
          | .ok r => .next .transcriptionComplete
              (setField p "TranscriptionJobDetails" r) (k + 1)
              [.enter .getTranscriptionJob, .callGetTranscription k jn]
      | _ => .halt (.failed (.pathError .getTranscriptionJob)) p
          [.enter .getTranscriptionJob]
  | .transcriptionComplete =>
      match getPath p [.key "TranscriptionJobDetails", .key "TranscriptionJob",
                       .key "TranscriptionJobStatus"] with
      | some (.str st) =>
          if st = "COMPLETED" then
            .next .isLanguageEnglish p k [.enter .transcriptionComplete]
          else
            .next .waitForTranscription p k [.enter .transcriptionComplete, .loopBack]
      | _ => .halt (.failed (.pathError .transcriptionComplete)) p
          [.enter .transcriptionComplete]
  | .isLanguageEnglish =>
      match getPath p [.key "TranscriptionJobDetails", .key "TranscriptionJob",
                       .key "LanguageCode"] with
      | some (.str l) =>
          if stringMatchesCond l "en*" then
            .next .skipTranslation p k [.enter .isLanguageEnglish]
          else
            .next .getTranscriptionFile p k [.enter .isLanguageEnglish]
      | _ => .halt (.failed (.pathError .isLanguageEnglish)) p
          [.enter .isLanguageEnglish]
  | .skipTranslation =>
      .halt .succeeded p [.enter .skipTranslation, .passed]
  | .getTranscriptionFile =>
      match buildGetObjectParams p with
      | none => .halt (.failed (.pathError .getTranscriptionFile)) p
          [.enter .getTranscriptionFile]
      | some (b, ky) =>
          match svc.getObject b ky with
          | .error err => .halt (.failed (.taskError .getTranscriptionFile err)) p
              [.enter .getTranscriptionFile, .callGetObject b ky]
          | .ok r =>
              match getField r "Body" with
              | some (.str body) =>
                  match svc.stringToJson body with
                  | some fc => .next .translateText
                      (setField p "TranscriptionFile" (.obj [("FileContents", fc)])) k
                      [.enter .getTranscriptionFile, .callGetObject b ky]
                  | none => .halt (.failed (.pathError .getTranscriptionFile)) p
                      [.enter .getTranscriptionFile, .callGetObject b ky]
              | _ => .halt (.failed (.pathError .getTranscriptionFile)) p
                  [.enter .getTranscriptionFile, .callGetObject b ky]
  | .translateText =>
      match buildTranslateParams p with
      | none => .halt (.failed (.pathError .translateText)) p
          [.enter .translateText]
      | some tp =>
          match svc.translateText tp with
          | .error err => .halt (.failed (.taskError .translateText err)) p
              [.enter .translateText, .callTranslate tp]
          | .ok r => .next .synthesizeSpeech (setField p "TranslatedText" r) k
              [.enter .translateText, .callTranslate tp]
  | .synthesizeSpeech =>
      match buildSynthesizeParams p with
      | none => .halt (.failed (.pathError .synthesizeSpeech)) p
          [.enter .synthesizeSpeech]
      | some sp =>
          match svc.startSpeechSynthesisTask sp with
          | .error err => .halt (.failed (.taskError .synthesizeSpeech err)) p
              [.enter .synthesizeSpeech, .callSynthesize sp]
          | .ok r => .halt .succeeded r
              [.enter .synthesizeSpeech, .callSynthesize sp]

/-- A finished run: outcome, final payload, emitted events in order. -/
structure RunResult where
  outcome : Outcome
  payload : Json
  events : List Event

/-- Modelled from the spec: the Workflow Engine's run loop (§4.1) with the
iteration budget the spec requires (§4.7 cycle handling, §7 `Timeout`,
§9 iteration cap) — the interpreter (AWS Step Functions) is not part of
this repository; only the graph it walks (`stepAt`) is.  `fuel` is the
configured iteration budget: when it runs out the run is forced to FAILED
with the timeout reason. -/
def runFrom (svc : Services) (execName : String) :
    Nat → StateName → Json → Nat → List Event → RunResult
  | 0, _, p, _, evs => ⟨.failed .timeout, p, evs⟩
  | fuel + 1, s, p, k, evs =>
      match stepAt svc execName k s p with
      | .halt o q es => ⟨o, q, evs ++ es⟩
      | .next s2 q k2 es => runFrom svc execName fuel s2 q k2 (evs ++ es)

/-- Modelled from the spec: a whole run (§4.1 `run`), entering the graph at
`StartTranscriptionJob` (stack line 152) with the trigger event as initial
payload. -/
def runPipeline (svc : Services) (execName : String) (fuel : Nat)
    (event : Json) : RunResult :=
  runFrom svc execName fuel .startTranscriptionJob event 0 []

/-- The top-level payload field each Task state's declared `ResultPath`
writes (`$.TranscriptionJobDetails`, `$.TranscriptionFile`,
`$.TranslatedText`).  `SynthesizeSpeech` declares no `ResultPath`
(stack lines 127-141) and non-Task states write nothing, so both map to
`none`. -/
def taskResultField : StateName → Option String
  | .startTranscriptionJob => some "TranscriptionJobDetails"
  | .getTranscriptionJob => some "TranscriptionJobDetails"
  | .getTranscriptionFile => some "TranscriptionFile"
  | .translateText => some "TranslatedText"
  | _ => none

/-- Is this event an external call attempt? -/
def Event.isCall : Event → Bool
  | .callStartTranscription _ => true
  | .callGetTranscription _ _ => true
  | .callGetObject _ _ => true
  | .callTranslate _ => true
  | .callSynthesize _ => true
  | _ => false

/-- Is this event a `startTranscriptionJob` call attempt? -/
def Event.isStartCall : Event → Bool
  | .callStartTranscription _ => true
  | _ => false

/-- Is this event a `getTranscriptionJob` poll attempt? -/
def Event.isPollCall : Event → Bool
  | .callGetTranscription _ _ => true
  | _ => false

/-- Is this event an s3 `getObject` (transcript fetch) attempt? -/
def Event.isFetchCall : Event → Bool
  | .callGetObject _ _ => true
  | _ => false

/-- Is this event a `translateText` call attempt? -/
def Event.isTranslateCall : Event → Bool
  | .callTranslate _ => true
  | _ => false

/-- Is this event a `startSpeechSynthesisTask` call attempt? -/
def Event.isSynthesizeCall : Event → Bool
  | .callSynthesize _ => true
  | _ => false

/-- Is this event the poll loop's back edge? -/
def Event.isLoopBack : Event → Bool
  | .loopBack => true
  | _ => false


/-- The trigger event of the end-to-end scenarios: an EventBridge
`Object Created` detail for `clip.mp4` in bucket `media-bucket`
(spec §8, scenario A). -/
def eventA : Json :=
  .obj [("detail", .obj
    [("bucket", .obj [("name", .str "media-bucket")]),
     ("object", .obj [("key", .str "clip.mp4")])])]

/-- A transcription-job response carrying only name and status, the shape
returned while the job is pending or failed. -/
def pollJson (jn st : String) : Json :=
  .obj [("TranscriptionJob", .obj
    [("TranscriptionJobName", .str jn),
     ("TranscriptionJobStatus", .str st)])]

/-- Transcript file URI used by the scenarios (Transcribe returns an
https-style s3 object URL; split on `/` its items 2 and 3 are bucket and
key). -/
def uriA : String :=
  "https://s3.us-east-1.amazonaws.com/media-bucket/TranscriptionJob-exec1.json"

/-- A completed transcription-job response with detected language `lang`
and the transcript file URI. -/
def doneJson (jn lang : String) : Json :=
  .obj [("TranscriptionJob", .obj
    [("TranscriptionJobName", .str jn),
     ("TranscriptionJobStatus", .str "COMPLETED"),
     ("LanguageCode", .str lang),
     ("Transcript", .obj [("TranscriptFileUri", .str uriA)])])]

/-- Parsed transcript file contents with transcript text `t`. -/
def fileJson (t : String) : Json :=
  .obj [("results", .obj
    [("transcripts", .arr [.obj [("transcript", .str t)]])])]

/-- Raw body string stored in the transcript object for the scenarios. -/
def bodyA : String := "RAW_TRANSCRIPT_JSON"

/-- Polly response to a synthesis submission in the scenarios. -/
def synthResponse : Json :=
  .obj [("SynthesisTask", .obj [("TaskId", .str "task-0001")])]

/-- Scenario A services (spec §8): polls 0 and 1 report `IN_PROGRESS`,
poll 2 reports `COMPLETED` with detected language `"es"`; the transcript
text is `"hola mundo"`; translation yields `"hello world"`. -/
def svcA : Services where
  startTranscriptionJob := fun ps => .ok (pollJson ps.jobName "IN_PROGRESS")
  getTranscriptionJob := fun k jn =>
    .ok (if k < 2 then pollJson jn "IN_PROGRESS" else doneJson jn "es")
  getObject := fun _ _ => .ok (.obj [("Body", .str bodyA)])
  stringToJson := fun s => if s = bodyA then some (fileJson "hola mundo") else none
  translateText := fun _ => .ok (.obj [("TranslatedText", .str "hello world")])
  startSpeechSynthesisTask := fun _ => .ok synthResponse

/-- Scenario B services (spec §8): the first poll already reports
`COMPLETED` with detected language `"en"`. -/
def svcB : Services where
  startTranscriptionJob := fun ps => .ok (pollJson ps.jobName "IN_PROGRESS")
  getTranscriptionJob := fun _ jn => .ok (doneJson jn "en")
  getObject := fun _ _ => .ok (.obj [("Body", .str bodyA)])
  stringToJson := fun s => if s = bodyA then some (fileJson "good morning") else none
  translateText := fun _ => .ok (.obj [("TranslatedText", .str "good morning")])
  startSpeechSynthesisTask := fun _ => .ok synthResponse

/-- A transcription service whose job never completes: every poll reports
`IN_PROGRESS` (the injected never-completing poll loop of spec §8). -/
def svcStuck : Services where
  startTranscriptionJob := fun ps => .ok (pollJson ps.jobName "IN_PROGRESS")
  getTranscriptionJob := fun _ jn => .ok (pollJson jn "IN_PROGRESS")
  getObject := fun _ _ => .ok (.obj [("Body", .str bodyA)])
  stringToJson := fun _ => none
  translateText := fun _ => .ok (.obj [("TranslatedText", .str "")])
  startSpeechSynthesisTask := fun _ => .ok synthResponse

/-- Scenario C services (spec §8): every poll reports the job status
`FAILED`. -/
def svcFailStatus : Services where
  startTranscriptionJob := fun ps => .ok (pollJson ps.jobName "IN_PROGRESS")
  getTranscriptionJob := fun _ jn => .ok (pollJson jn "FAILED")
  getObject := fun _ _ => .ok (.obj [("Body", .str bodyA)])
  stringToJson := fun _ => none
  translateText := fun _ => .ok (.obj [("TranslatedText", .str "")])
  startSpeechSynthesisTask := fun _ => .ok synthResponse

/-- Services whose transcription submission fails with a transient
(network-timeout style) error. -/
def svcErr : Services where
  startTranscriptionJob := fun _ => .error (.transient "connection timeout")
  getTranscriptionJob := fun _ jn => .ok (pollJson jn "IN_PROGRESS")
  getObject := fun _ _ => .ok (.obj [("Body", .str bodyA)])
  stringToJson := fun _ => none
  translateText := fun _ => .ok (.obj [("TranslatedText", .str "")])
  startSpeechSynthesisTask := fun _ => .ok synthResponse

/-- The `StartTranscriptionJob` parameters the graph derives from `eventA`
for execution name `e`. -/
def startParamsFor (e : String) : StartTranscriptionParams :=
  { jobName := statesFormatS "TranscriptionJob-{}" [e]
    identifyLanguage := true
    mediaFileUri := "s3://media-bucket/clip.mp4"
    outputBucketName := "media-bucket" }
/-- A payload as it stands at the `IsLanguageEnglish?` choice when the
detected language is `"en"`. -/
def pEn : Json := .obj [("TranscriptionJobDetails", doneJson "jobX" "en")]

/-- A payload as it stands at the `IsLanguageEnglish?` choice when the
detected language is `"es"`. -/
def pEs : Json := .obj [("TranscriptionJobDetails", doneJson "jobX" "es")]

/-- A payload as it stands just before `SynthesizeSpeech` in scenario A:
the trigger event fields plus the translation result. -/
def payloadBeforeSynthesis : Json :=
  setField eventA "TranslatedText" (.obj [("TranslatedText", .str "hello world")])

/-- A payload as it stands just before `TranslateText` in scenario A. -/
def payloadBeforeTranslate : Json :=
  .obj [("TranscriptionJobDetails", doneJson "jobX" "es"),
        ("TranscriptionFile", .obj [("FileContents", fileJson "hola mundo")])]

/-- The synthesis parameters derived from `payloadBeforeSynthesis`. -/
def spFixed : SynthesizeParams :=
  { outputFormat := "mp3", outputBucketName := "media-bucket"
    outputLocation := "translations/", text := "hello world"
    voiceId := "Joanna" }
/-- Reading back a field other than the one just written is unchanged. -/
theorem getInList_setInList_ne (kvs : List (String × Json)) (t : String)
    (v : Json) (f : String) (h : f ≠ t) :
    getInList (setInList kvs t v) f = getInList kvs f := by
  induction kvs with
  | nil =>
      simp [setInList, getInList, Ne.symm h]
  | cons kv rest ih =>
      obtain ⟨k, w⟩ := kv
      by_cases hk : k = t
      · subst hk
        simp [setInList, getInList, Ne.symm h]
      · simp [setInList, getInList, hk, ih]

/-- Reading back the field just written yields the written value. -/
theorem getInList_setInList_self (kvs : List (String × Json)) (t : String)
    (v : Json) : getInList (setInList kvs t v) t = some v := by
  induction kvs with
  | nil => simp [setInList, getInList]
  | cons kv rest ih =>
      obtain ⟨k, w⟩ := kv
      by_cases hk : k = t
      · subst hk
        simp [setInList, getInList]
      · simp [setInList, getInList, hk, ih]

/-- `setField` leaves every other top-level field unchanged. -/
theorem getField_setField_ne (p : Json) (t : String) (v : Json) (f : String)
    (h : f ≠ t) : getField (setField p t v) f = getField p f := by
  cases p <;> simp [setField, getField, getInList, Ne.symm h,
    getInList_setInList_ne _ _ _ _ h]

/-- `setField` makes the written field readable. -/
theorem getField_setField_self (p : Json) (t : String) (v : Json) :
    getField (setField p t v) t = some v := by
  cases p <;> simp [setField, getField, getInList, getInList_setInList_self]

/-- Entering the written field continues the path inside the written
value. -/
theorem getPath_setField_self (p : Json) (t : String) (v : Json)
    (rest : List PathSeg) :
    getPath (setField p t v) (.key t :: rest) = getPath v rest := by
  simp [getPath, getField_setField_self]

/-- Any `startTranscriptionJob` call event emitted by the
`StartTranscriptionJob` state carries exactly the parameters derived from
the payload by `buildStartTranscriptionParams`. -/
theorem mem_startCall_buildParams (svc : Services) (e : String) (k : Nat)
    (p : Json) (q : StartTranscriptionParams)
    (h : Event.callStartTranscription q ∈
      (stepAt svc e k .startTranscriptionJob p).events) :
    buildStartTranscriptionParams e p = some q := by
  rcases hb : buildStartTranscriptionParams e p with _ | ps
  · simp [stepAt, hb, StepOut.events] at h
  · rcases hr : svc.startTranscriptionJob ps with err | r <;>
    · simp [stepAt, hb, hr, StepOut.events] at h
      subst h
      rfl

/-- The job name derived by `StartTranscriptionJob` is
`States.Format('TranscriptionJob-{}', $$.Execution.Name)`. -/
theorem buildStart_jobName (e : String) (p : Json)
    (q : StartTranscriptionParams)
    (h : buildStartTranscriptionParams e p = some q) :
    q.jobName = statesFormatS "TranscriptionJob-{}" [e] := by
  simp only [buildStartTranscriptionParams] at h
  split at h
  · injection h with h2
    subst h2
    rfl
  · exact Option.noConfusion h

/-- Claim C2, evaluated at the failing input (scenario C services, whose
every poll reports job status `FAILED`, with the `clip.mp4` event and a
budget of 20 steps): the run does NOT terminate FAILED with a
permanent-external-error reason when the job status is `FAILED` — the
`TranscriptionComplete?` choice has no failed-job branch, so the `FAILED`
status is routed back to the Wait state on every poll (six polls and six
back edges here) until the iteration budget forces the timeout reason.
No translate or synthesize call is made. -/
theorem C2_failed_status_keeps_polling_until_timeout :
    (runPipeline svcFailStatus "exec1" 20 eventA).outcome = .failed .timeout ∧
    ((runPipeline svcFailStatus "exec1" 20 eventA).events.filter
      Event.isPollCall).length = 6 ∧
    ((runPipeline svcFailStatus "exec1" 20 eventA).events.filter
      Event.isLoopBack).length = 6 ∧
    (runPipeline svcFailStatus "exec1" 20 eventA).events.filter
      Event.isTranslateCall = [] ∧
    (runPipeline svcFailStatus "exec1" 20 eventA).events.filter
      Event.isSynthesizeCall = [] := by
  refine ⟨by decide, by decide, by decide, by decide, by decide⟩

/-- Counterexample to claim C3 at a concrete input (scenario B: detected
language `"en"`, `clip.mp4` event, budget 20): the claim asserts that
`synthesizeSpeech` is nevertheless invoked, but the run ends SUCCEEDED at
the `SkipTranslation` Pass with NO synthesize call (the Pass has no `next`
in the source, so it is an end state). -/
theorem C3_counterexample_no_synthesis_on_english :
    (runPipeline svcB "exec2" 20 eventA).outcome = .succeeded ∧
    Event.passed ∈ (runPipeline svcB "exec2" 20 eventA).events ∧
    (runPipeline svcB "exec2" 20 eventA).events.filter
      Event.isSynthesizeCall = [] := by
  refine ⟨by decide, by decide, by decide⟩

/-- Claim C3 (amended): when the detected language code matches `"en*"`,
the `IsLanguageEnglish?` choice routes the run to the no-op
`SkipTranslation` Pass, and that Pass — having no successor in the graph —
ends the run SUCCEEDED immediately: translation is skipped and
`synthesizeSpeech` is NOT invoked (neither state performs any external
call). -/
theorem C3_english_ends_at_pass_without_synthesis
    (svc : Services) (e : String) (k : Nat) (p : Json) (l : String)
    (hl : getPath p [.key "TranscriptionJobDetails", .key "TranscriptionJob",
      .key "LanguageCode"] = some (.str l))
    (hm : stringMatchesCond l "en*" = true) :
    stepAt svc e k .isLanguageEnglish p =
      .next .skipTranslation p k [.enter .isLanguageEnglish] ∧
    stepAt svc e k .skipTranslation p =
      .halt .succeeded p [.enter .skipTranslation, .passed] := by
  constructor
  · simp [stepAt, hl, hm]
  · rfl

/-- Witness for the amended claim C3 at the payload `pEn` (detected
language `"en"`). -/
theorem C3_witness :
    getPath pEn [.key "TranscriptionJobDetails", .key "TranscriptionJob",
      .key "LanguageCode"] = some (.str "en") ∧
    stringMatchesCond "en" "en*" = true ∧
    (stepAt svcB "exec2" 0 .isLanguageEnglish pEn =
      .next .skipTranslation pEn 0 [.enter .isLanguageEnglish] ∧
    stepAt svcB "exec2" 0 .skipTranslation pEn =
      .halt .succeeded pEn [.enter .skipTranslation, .passed]) :=
  ⟨rfl, by decide,
   C3_english_ends_at_pass_without_synthesis svcB "exec2" 0 pEn "en"
     rfl (by decide)⟩

/-- Counterexample to claim C4 at a concrete input (scenario B: the
transcription completes — the run reaches the `IsLanguageEnglish?` choice,
which only happens after the completion choice observed `COMPLETED` — yet
no transcript fetch is ever performed, because the fetch lives inside the
non-English branch, after the language choice). -/
theorem C4_counterexample_completed_run_without_fetch :
    Event.enter .isLanguageEnglish ∈
      (runPipeline svcB "exec2" 20 eventA).events ∧
    (runPipeline svcB "exec2" 20 eventA).events.filter
      Event.isFetchCall = [] ∧
    (runPipeline svcB "exec2" 20 eventA).outcome = .succeeded := by
  refine ⟨by decide, by decide, by decide⟩

/-- Claim C4 (amended): the transcript fetch (`GetTranscriptionFile`) is
NOT performed before the language choice: it is entered from the
`IsLanguageEnglish?` choice's non-matching branch only — it is the first
state of the translate branch (stack line 150), executed exactly when the
detected language does not match `"en*"`, and the choice itself performs
no external call. -/
theorem C4_fetch_only_on_nonmatching_branch
    (svc : Services) (e : String) (k : Nat) (p : Json) (l : String)
    (hl : getPath p [.key "TranscriptionJobDetails", .key "TranscriptionJob",
      .key "LanguageCode"] = some (.str l))
    (hm : stringMatchesCond l "en*" = false) :
    stepAt svc e k .isLanguageEnglish p =
      .next .getTranscriptionFile p k [.enter .isLanguageEnglish] := by
  simp [stepAt, hl, hm]

/-- Witness for the amended claim C4 at the payload `pEs` (detected
language `"es"`). -/
theorem C4_witness :
    getPath pEs [.key "TranscriptionJobDetails", .key "TranscriptionJob",
      .key "LanguageCode"] = some (.str "es") ∧
    stringMatchesCond "es" "en*" = false ∧
    stepAt svcA "exec1" 0 .isLanguageEnglish pEs =
      .next .getTranscriptionFile pEs 0 [.enter .isLanguageEnglish] :=
  ⟨rfl, by decide,
   C4_fetch_only_on_nonmatching_branch svcA "exec1" 0 pEs "es"
     rfl (by decide)⟩

/-- Counterexample to claim C5 at a concrete input: `SynthesizeSpeech`
declares no `ResultPath` (stack lines 127-141), so its result replaces the
whole payload (ASL default `ResultPath` is `$`).  The `$.detail` paths are
present before the task and gone after it, so the claim's "this holds for
every Task in the graph, including SynthesizeSpeech" is false. -/
theorem C5_counterexample_synthesize_replaces_payload :
    (getField payloadBeforeSynthesis "detail").isSome = true ∧
    (stepAt svcA "exec1" 0 .synthesizeSpeech payloadBeforeSynthesis).isHalt
      = true ∧
    getField
      (stepAt svcA "exec1" 0 .synthesizeSpeech payloadBeforeSynthesis).payload
      "detail" = none :=
  ⟨rfl, rfl, rfl⟩

/-- Claim C5 (amended): the frame property holds for the four Task states
that declare a `ResultPath` (`StartTranscriptionJob`, `GetTranscriptionJob`,
`GetTranscriptionFile`, `TranslateText`): after the step, every top-level
payload field other than the declared result field is unchanged; only the
declared field is new or overwritten.  It does NOT hold for
`SynthesizeSpeech`, which declares no `ResultPath` and therefore replaces
the entire payload with its result. -/
theorem C5_resultpath_tasks_preserve_other_fields
    (svc : Services) (e : String) (k : Nat) (s : StateName) (p : Json)
    (t f : String) (ht : taskResultField s = some t) (hf : f ≠ t) :
    getField (stepAt svc e k s p).payload f = getField p f := by
  cases s
  case startTranscriptionJob =>
    simp only [taskResultField, Option.some.injEq] at ht
    subst ht
    rcases hb : buildStartTranscriptionParams e p with _ | ps
    · simp [stepAt, hb, StepOut.payload]
    · rcases hr : svc.startTranscriptionJob ps with err | r
      · simp [stepAt, hb, hr, StepOut.payload]
      · simp [stepAt, hb, hr, StepOut.payload, getField_setField_ne _ _ _ _ hf]
  case getTranscriptionJob =>
    simp only [taskResultField, Option.some.injEq] at ht
    subst ht
    rcases hb : getPath p [.key "TranscriptionJobDetails",
        .key "TranscriptionJob", .key "TranscriptionJobName"] with _ | v
    · simp [stepAt, hb, StepOut.payload]
    · cases v
      case str jn =>
        rcases hr : svc.getTranscriptionJob k jn with err | r
        · simp [stepAt, hb, hr, StepOut.payload]
        · simp [stepAt, hb, hr, StepOut.payload,
            getField_setField_ne _ _ _ _ hf]
      all_goals simp [stepAt, hb, StepOut.payload]
  case getTranscriptionFile =>
    simp only [taskResultField, Option.some.injEq] at ht
    subst ht
    rcases hb : buildGetObjectParams p with _ | bk
    · simp [stepAt, hb, StepOut.payload]
    · obtain ⟨b, ky⟩ := bk
      rcases hr : svc.getObject b ky with err | r
      · simp [stepAt, hb, hr, StepOut.payload]
      · rcases hbody : getField r "Body" with _ | v
        · simp [stepAt, hb, hr, hbody, StepOut.payload]
        · cases v
          case str body =>
            rcases hj : svc.stringToJson body with _ | fc
            · simp [stepAt, hb, hr, hbody, hj, StepOut.payload]
            · simp [stepAt, hb, hr, hbody, hj, StepOut.payload,
                getField_setField_ne _ _ _ _ hf]
          all_goals simp [stepAt, hb, hr, hbody, StepOut.payload]
  case translateText =>
    simp only [taskResultField, Option.some.injEq] at ht
    subst ht
    rcases hb : buildTranslateParams p with _ | tp
    · simp [stepAt, hb, StepOut.payload]
    · rcases hr : svc.translateText tp with err | r
      · simp [stepAt, hb, hr, StepOut.payload]
      · simp [stepAt, hb, hr, StepOut.payload, getField_setField_ne _ _ _ _ hf]
  all_goals simp [taskResultField] at ht

/-- Witness for the amended claim C5: the `$.detail` field survives a
`TranslateText` step (here applied at the scenario-A payload). -/
theorem C5_witness :
    taskResultField .translateText = some "TranslatedText" ∧
    "detail" ≠ "TranslatedText" ∧
    getField (stepAt svcA "exec1" 0 .translateText payloadBeforeTranslate).payload
      "detail" = getField payloadBeforeTranslate "detail" :=
  ⟨rfl, by decide,
   C5_resultpath_tasks_preserve_other_fields svcA "exec1" 0 .translateText
     payloadBeforeTranslate "TranslatedText" "detail" rfl (by decide)⟩

/-- Claim C6: the transcription job name submitted by
`StartTranscriptionJob` is a deterministic function of the execution's
identifier alone — two invocations with the same execution name (even with
different services, payloads and poll indices) submit the same job name,
namely `States.Format('TranscriptionJob-{}', $$.Execution.Name)`. -/
theorem C6_job_name_depends_only_on_execution_name
    (svc1 svc2 : Services) (e : String) (k1 k2 : Nat) (p1 p2 : Json)
    (q1 q2 : StartTranscriptionParams)
    (h1 : Event.callStartTranscription q1 ∈
      (stepAt svc1 e k1 .startTranscriptionJob p1).events)
    (h2 : Event.callStartTranscription q2 ∈
      (stepAt svc2 e k2 .startTranscriptionJob p2).events) :
    q1.jobName = q2.jobName ∧
    q1.jobName = statesFormatS "TranscriptionJob-{}" [e] := by
  have e1 := buildStart_jobName e p1 q1 (mem_startCall_buildParams _ _ _ _ _ h1)
  have e2 := buildStart_jobName e p2 q2 (mem_startCall_buildParams _ _ _ _ _ h2)
  exact ⟨e1.trans e2.symm, e1⟩

/-- Witness for claim C6: two submissions for execution name `"exec1"`
(different services and poll indices) both derive the job name
`TranscriptionJob-exec1`. -/
theorem C6_witness :
    Event.callStartTranscription (startParamsFor "exec1") ∈
      (stepAt svcA "exec1" 0 .startTranscriptionJob eventA).events ∧
    Event.callStartTranscription (startParamsFor "exec1") ∈
      (stepAt svcB "exec1" 3 .startTranscriptionJob eventA).events ∧
    ((startParamsFor "exec1").jobName = (startParamsFor "exec1").jobName ∧
     (startParamsFor "exec1").jobName =
       statesFormatS "TranscriptionJob-{}" ["exec1"]) :=
  ⟨by decide, by decide,
   C6_job_name_depends_only_on_execution_name svcA svcB "exec1" 0 3
     eventA eventA (startParamsFor "exec1") (startParamsFor "exec1")
     (by decide) (by decide)⟩

/-- Claim C7: scenario A (event for `clip.mp4`, poll statuses IN_PROGRESS,
IN_PROGRESS, COMPLETED with detected language `"es"`, budget 20): the run
goes around the poll loop's back edge exactly twice, makes exactly the
calls start, three polls, fetch, then `translateText` with source `"es"`
and target `"en"` on the transcript text, then `synthesizeSpeech` with the
translated text, in that order, and ends SUCCEEDED. -/
theorem C7_scenarioA_two_cycles_translate_then_synthesize :
    (runPipeline svcA "exec1" 20 eventA).outcome = .succeeded ∧
    ((runPipeline svcA "exec1" 20 eventA).events.filter
      Event.isLoopBack).length = 2 ∧
    (runPipeline svcA "exec1" 20 eventA).events.filter Event.isCall =
      [.callStartTranscription (startParamsFor "exec1"),
       .callGetTranscription 0 "TranscriptionJob-exec1",
       .callGetTranscription 1 "TranscriptionJob-exec1",
       .callGetTranscription 2 "TranscriptionJob-exec1",
       .callGetObject "media-bucket" "TranscriptionJob-exec1.json",
       .callTranslate { sourceLanguageCode := "es", targetLanguageCode := "en"
                        text := "hola mundo" },
       .callSynthesize spFixed] := by
  refine ⟨by decide, by decide, by decide⟩

/-- Counterexample to claim C8 at a concrete input: when the
`startTranscriptionJob` call fails with a transient (network-timeout)
error, the run fails immediately after a single call attempt — no retry is
performed and no retry/backoff configuration exists anywhere in the graph
(no state in the source declares a `Retry` policy). -/
theorem C8_counterexample_transient_error_single_attempt :
    (runPipeline svcErr "exec1" 20 eventA).outcome =
      .failed (.taskError .startTranscriptionJob
        (.transient "connection timeout")) ∧
    ((runPipeline svcErr "exec1" 20 eventA).events.filter
      Event.isStartCall).length = 1 ∧
    ((runPipeline svcErr "exec1" 20 eventA).events.filter
      Event.isCall).length = 1 := by
  refine ⟨by decide, by decide, by decide⟩

/-- Claim C8 (amended): the graph declares no retry policy for any task,
so a Task whose external call fails — transiently or not — fails the run
immediately with that task's error, after exactly one call attempt (shown
here for `startTranscriptionJob` on the `clip.mp4` event, for any services,
any error and any positive budget). -/
theorem C8_task_error_fails_run_with_single_attempt
    (svc : Services) (e : String) (err : TaskError) (fuel : Nat)
    (h1 : svc.startTranscriptionJob (startParamsFor e) = .error err)
    (h2 : 1 ≤ fuel) :
    (runPipeline svc e fuel eventA).outcome =
      .failed (.taskError .startTranscriptionJob err) ∧
    (runPipeline svc e fuel eventA).events =
      [.enter .startTranscriptionJob,
       .callStartTranscription (startParamsFor e)] := by
  obtain ⟨n, rfl⟩ : ∃ n, fuel = n + 1 := ⟨fuel - 1, by omega⟩
  have hb : buildStartTranscriptionParams e eventA = some (startParamsFor e) :=
    rfl
  constructor <;> simp [runPipeline, runFrom, stepAt, hb, h1]

/-- Witness for the amended claim C8 at the concrete erroring services. -/
theorem C8_witness :
    svcErr.startTranscriptionJob (startParamsFor "exec1") =
      .error (.transient "connection timeout") ∧
    1 ≤ 5 ∧
    ((runPipeline svcErr "exec1" 5 eventA).outcome =
      .failed (.taskError .startTranscriptionJob
        (.transient "connection timeout")) ∧
    (runPipeline svcErr "exec1" 5 eventA).events =
      [.enter .startTranscriptionJob,
       .callStartTranscription (startParamsFor "exec1")]) :=
  ⟨rfl, by omega,
   C8_task_error_fails_run_with_single_attempt svcErr "exec1"
     (.transient "connection timeout") 5 rfl (by omega)⟩

/-- Claim C9: `SynthesizeSpeech` is the last thing a run does — the state
has no successor in the graph (no `next`, no Wait/Choice poll cycle
follows it), so every step taken at it halts the run; and when the
synthesis submission succeeds the run halts SUCCEEDED immediately with
that single submission. -/
theorem C9_synthesis_is_fire_and_forget
    (svc : Services) (e : String) (k : Nat) (p : Json) :
    (stepAt svc e k .synthesizeSpeech p).isHalt = true ∧
    (∀ sp r, buildSynthesizeParams p = some sp →
      svc.startSpeechSynthesisTask sp = .ok r →
      stepAt svc e k .synthesizeSpeech p =
        .halt .succeeded r [.enter .synthesizeSpeech, .callSynthesize sp]) := by
  constructor
  · rcases hb : buildSynthesizeParams p with _ | sp
    · simp [stepAt, hb, StepOut.isHalt]
    · rcases hr : svc.startSpeechSynthesisTask sp with err | r <;>
        simp [stepAt, hb, hr, StepOut.isHalt]
  · intro sp r hb hr
    simp [stepAt, hb, hr]

/-- Witness for claim C9 at the scenario-A payload and services. -/
theorem C9_witness :
    (stepAt svcA "exec1" 0 .synthesizeSpeech payloadBeforeSynthesis).isHalt
      = true ∧
    buildSynthesizeParams payloadBeforeSynthesis = some spFixed ∧
    svcA.startSpeechSynthesisTask spFixed = .ok synthResponse ∧
    stepAt svcA "exec1" 0 .synthesizeSpeech payloadBeforeSynthesis =
      .halt .succeeded synthResponse
        [.enter .synthesizeSpeech, .callSynthesize spFixed] :=
  ⟨(C9_synthesis_is_fire_and_forget svcA "exec1" 0 payloadBeforeSynthesis).1,
   rfl, rfl,
   (C9_synthesis_is_fire_and_forget svcA "exec1" 0 payloadBeforeSynthesis).2
     spFixed synthResponse rfl rfl⟩

/-- Claim C10: whenever `SynthesizeSpeech` parameters are derived from a
payload, the output format is the literal `"mp3"`, the voice the literal
`"Joanna"`, the output key location the literal `"translations/"`, and the
output bucket is exactly `$.detail.bucket.name` — the bucket the source
media was uploaded to; and whenever `TranslateText` parameters are derived,
the target language is the literal `"en"`. -/
theorem C10_synthesis_and_translation_parameters_fixed :
    (∀ p sp, buildSynthesizeParams p = some sp →
      sp.outputFormat = "mp3" ∧ sp.voiceId = "Joanna" ∧
      sp.outputLocation = "translations/" ∧
      getPath p [.key "detail", .key "bucket", .key "name"] =
        some (.str sp.outputBucketName)) ∧
    (∀ p tp, buildTranslateParams p = some tp →
      tp.targetLanguageCode = "en") := by
  constructor
  · intro p sp h
    simp only [buildSynthesizeParams] at h
    split at h
    · injection h with h2
      subst h2
      rename_i b t hb ht
      exact ⟨rfl, rfl, rfl, hb⟩
    · exact Option.noConfusion h
  · intro p tp h
    simp only [buildTranslateParams] at h
    split at h
    · injection h with h2
      subst h2
      rfl
    · exact Option.noConfusion h

/-- Witness for claim C10 at the scenario-A payloads. -/
theorem C10_witness :
    buildSynthesizeParams payloadBeforeSynthesis = some spFixed ∧
    (spFixed.outputFormat = "mp3" ∧ spFixed.voiceId = "Joanna" ∧
     spFixed.outputLocation = "translations/" ∧
     getPath payloadBeforeSynthesis [.key "detail", .key "bucket", .key "name"]
       = some (.str spFixed.outputBucketName)) ∧
    buildTranslateParams payloadBeforeTranslate =
      some { sourceLanguageCode := "es", targetLanguageCode := "en"
             text := "hola mundo" } ∧
    ({ sourceLanguageCode := "es", targetLanguageCode := "en"
       text := "hola mundo" : TranslateParams }).targetLanguageCode = "en" :=
  ⟨rfl,
   C10_synthesis_and_translation_parameters_fixed.1 payloadBeforeSynthesis
     spFixed rfl,
   rfl,
   C10_synthesis_and_translation_parameters_fixed.2 payloadBeforeTranslate
     { sourceLanguageCode := "es", targetLanguageCode := "en"
       text := "hola mundo" } rfl⟩

/-- Unfold one engine step when the step transitions. -/
theorem runFrom_next (svc : Services) (e : String) (fuel : Nat)
    (s : StateName) (p : Json) (k : Nat) (evs : List Event) (s2 : StateName)
    (q : Json) (k2 : Nat) (es : List Event)
    (hstep : stepAt svc e k s p = .next s2 q k2 es) :
    runFrom svc e (fuel + 1) s p k evs =
      runFrom svc e fuel s2 q k2 (evs ++ es) := by
  rw [runFrom, hstep]

/-- As long as every poll reports `IN_PROGRESS` (services `svcStuck`), the
poll loop `Wait → GetTranscriptionJob → TranscriptionComplete? → Wait`
never exits and every budget is eventually exhausted: from the Wait state,
with the job name present in the payload, the run ends FAILED with the
timeout reason for every remaining budget. -/
theorem stuckLoop :
    ∀ (fuel : Nat) (p : Json) (k : Nat) (evs : List Event) (jn : String),
      getPath p [.key "TranscriptionJobDetails", .key "TranscriptionJob",
        .key "TranscriptionJobName"] = some (.str jn) →
      (runFrom svcStuck "exec1" fuel .waitForTranscription p k evs).outcome =
        .failed .timeout
  | 0, p, k, evs, jn, h => rfl
  | 1, p, k, evs, jn, h => rfl
  | 2, p, k, evs, jn, h => by
      have hs : stepAt svcStuck "exec1" k .getTranscriptionJob p =
          .next .transcriptionComplete
            (setField p "TranscriptionJobDetails" (pollJson jn "IN_PROGRESS"))
            (k + 1)
            [.enter .getTranscriptionJob, .callGetTranscription k jn] := by
        simp [stepAt, h, svcStuck]
      rw [runFrom_next svcStuck "exec1" 1 .waitForTranscription p k evs
            .getTranscriptionJob p k
            [.enter .waitForTranscription, .waited 45] rfl,
          runFrom_next svcStuck "exec1" 0 .getTranscriptionJob p k _
            .transcriptionComplete
            (setField p "TranscriptionJobDetails" (pollJson jn "IN_PROGRESS"))
            (k + 1)
            [.enter .getTranscriptionJob, .callGetTranscription k jn] hs]
      rfl
  | n + 3, p, k, evs, jn, h => by
      have hs : stepAt svcStuck "exec1" k .getTranscriptionJob p =
          .next .transcriptionComplete
            (setField p "TranscriptionJobDetails" (pollJson jn "IN_PROGRESS"))
            (k + 1)
            [.enter .getTranscriptionJob, .callGetTranscription k jn] := by
        simp [stepAt, h, svcStuck]
      have hga : getPath
          (setField p "TranscriptionJobDetails" (pollJson jn "IN_PROGRESS"))
          [.key "TranscriptionJobDetails", .key "TranscriptionJob",
           .key "TranscriptionJobStatus"] = some (.str "IN_PROGRESS") := by
        rw [getPath_setField_self]
        rfl
      have hgn : getPath
          (setField p "TranscriptionJobDetails" (pollJson jn "IN_PROGRESS"))
          [.key "TranscriptionJobDetails", .key "TranscriptionJob",
           .key "TranscriptionJobName"] = some (.str jn) := by
        rw [getPath_setField_self]
        rfl
      have hc : stepAt svcStuck "exec1" (k + 1) .transcriptionComplete
          (setField p "TranscriptionJobDetails" (pollJson jn "IN_PROGRESS")) =
          .next .waitForTranscription
            (setField p "TranscriptionJobDetails" (pollJson jn "IN_PROGRESS"))
            (k + 1)
            [.enter .transcriptionComplete, .loopBack] := by
        simp [stepAt, hga]
      rw [runFrom_next svcStuck "exec1" (n + 2) .waitForTranscription p k evs
            .getTranscriptionJob p k
            [.enter .waitForTranscription, .waited 45] rfl,
          runFrom_next svcStuck "exec1" (n + 1) .getTranscriptionJob p k _
            .transcriptionComplete
            (setField p "TranscriptionJobDetails" (pollJson jn "IN_PROGRESS"))
            (k + 1)
            [.enter .getTranscriptionJob, .callGetTranscription k jn] hs,
          runFrom_next svcStuck "exec1" n .transcriptionComplete
            (setField p "TranscriptionJobDetails" (pollJson jn "IN_PROGRESS"))
            (k + 1) _ .waitForTranscription
            (setField p "TranscriptionJobDetails" (pollJson jn "IN_PROGRESS"))
            (k + 1)
            [.enter .transcriptionComplete, .loopBack] hc]
      exact stuckLoop n
        (setField p "TranscriptionJobDetails" (pollJson jn "IN_PROGRESS"))
        (k + 1) _ jn hgn

/-- Claim C1: every run terminates in SUCCEEDED or FAILED (the budgeted
engine is a total function whose outcome is one of the two), and a run
whose poll loop never observes a `COMPLETED` transcription status — here
the services `svcStuck`, whose every poll reports `IN_PROGRESS` — is
forced to FAILED with the timeout reason, for every budget. -/
theorem C1_run_terminates_within_budget :
    (∀ (svc : Services) (e : String) (fuel : Nat) (s : StateName) (p : Json)
       (k : Nat) (evs : List Event),
      (runFrom svc e fuel s p k evs).outcome = .succeeded ∨
      ∃ r, (runFrom svc e fuel s p k evs).outcome = .failed r) ∧
    (∀ fuel : Nat,
      (runPipeline svcStuck "exec1" fuel eventA).outcome = .failed .timeout) := by
  constructor
  · intro svc e fuel s p k evs
    cases h : (runFrom svc e fuel s p k evs).outcome with
    | succeeded => exact .inl rfl
    | failed r => exact .inr ⟨r, rfl⟩
  · intro fuel
    cases fuel with
    | zero => rfl
    | succ n =>
      have hstart : runPipeline svcStuck "exec1" (n + 1) eventA =
          runFrom svcStuck "exec1" n .waitForTranscription
            (setField eventA "TranscriptionJobDetails"
              (pollJson "TranscriptionJob-exec1" "IN_PROGRESS")) 0
            [.enter .startTranscriptionJob,
             .callStartTranscription (startParamsFor "exec1")] :=
        runFrom_next svcStuck "exec1" n .startTranscriptionJob eventA 0 []
          .waitForTranscription
          (setField eventA "TranscriptionJobDetails"
            (pollJson "TranscriptionJob-exec1" "IN_PROGRESS")) 0
          [.enter .startTranscriptionJob,
           .callStartTranscription (startParamsFor "exec1")] rfl
      rw [hstart]
      exact stuckLoop n
        (setField eventA "TranscriptionJobDetails"
          (pollJson "TranscriptionJob-exec1" "IN_PROGRESS")) 0 _
        "TranscriptionJob-exec1" rfl
